import Mathlib

/-
  Verification of the theme-switching core of the
  Kendo-UI-Angular-Dark-Light-Mode-Switcher example application.

  The development shallowly embeds `src/app/theme/theme.service.ts`
  (class `ThemeService`) together with its collaborators:
  the browser local storage cell under the key "theme", the
  `matchMedia('(prefers-color-scheme: dark)')` preference query, and the
  DOM state the service mutates (the `theme-alternate` marker class on
  `document.body` and the lazily created Kendo UI stylesheet link's
  `href`).

  JavaScript runtime values that flow through the service (the parsed
  settings record may be any JSON value, and `darkMode` may be read from
  an object that lacks the field, yielding `undefined`) are modelled by
  the inductive type `JSVal`; truthiness and property access follow the
  JavaScript semantics the code relies on.
-/

namespace ThemeSwitcher

/-- JavaScript runtime values, as far as the theme service can observe
them: `undefined`, `null`, booleans, (integer) numbers, strings and
plain objects given by their field list. -/
inductive JSVal where
  | undefined : JSVal
  | null : JSVal
  | bool (b : Bool) : JSVal
  | num (n : Int) : JSVal
  | str (s : String) : JSVal
  | obj (fields : List (String × JSVal)) : JSVal
deriving Repr

/-- JavaScript truthiness: `undefined`, `null`, `false`, `0` and the
empty string are falsy; every object is truthy. -/
def JSVal.truthy : JSVal → Bool
  | .undefined => false
  | .null => false
  | .bool b => b
  | .num n => decide (n ≠ 0)
  | .str s => decide (s ≠ "")
  | .obj _ => true

/-- First-match lookup of a field in an object's field list; a missing
field reads as `undefined`, as in JavaScript. -/
def lookupField : List (String × JSVal) → String → JSVal
  | [], _ => .undefined
  | (k, v) :: rest, key => if k = key then v else lookupField rest key

/-- Property read `v.key`. On a non-object it yields `undefined`
(the service only dereferences values it has checked to be truthy, or
plain primitives, where JavaScript returns `undefined`). -/
def JSVal.getField : JSVal → String → JSVal
  | .obj fs, key => lookupField fs key
  | _, _ => .undefined

/-- Replace the first binding of `key` (or append one) in a field list. -/
def updateField : List (String × JSVal) → String → JSVal → List (String × JSVal)
  | [], key, v => [(key, v)]
  | (k, w) :: rest, key, v =>
      if k = key then (k, v) :: rest else (k, w) :: updateField rest key v

/-- Property write `v.key = x`. Writing a property on a primitive is a
silent no-op (non-strict-mode JavaScript boxes and discards). -/
def JSVal.setField : JSVal → String → JSVal → JSVal
  | .obj fs, key, v => .obj (updateField fs key v)
  | w, _, _ => w

/-- Is the value the `undefined` value? -/
def isUndefinedVal : JSVal → Bool
  | .undefined => true
  | _ => false

/-- Content of the local storage cell under the key "theme", abstracted
by how `JSON.parse` behaves on the stored string: the empty string
(falsy, returned as absent by `getLocalStorageItem` without parsing), a
non-empty string on which `JSON.parse` throws, or a non-empty string
that parses to the JSON value `v`. -/
inductive StoredCell where
  | emptyStr : StoredCell
  | unparseable : StoredCell
  | parsed (v : JSVal) : StoredCell
deriving Repr

/-- Effect of `JSON.stringify` followed by storing the string:
`JSON.stringify(undefined)` is not a JSON text (storing it yields the
unparseable string "undefined"), and `undefined`-valued fields of an
object are dropped.  Values nested below the top level of the records
the service persists are produced by `JSON.parse` and therefore never
contain `undefined`, so only top-level fields need the drop. -/
def serializeCell : JSVal → StoredCell
  | .undefined => .unparseable
  | .obj fs => .parsed (.obj (fs.filter (fun p => !isUndefinedVal p.2)))
  | v => .parsed v

/-- Host environment at the moment an operation runs: whether
`document.defaultView` is attached, and the current value of
`matchMedia('(prefers-color-scheme: dark)').matches`. -/
structure Env where
  hasWindow : Bool
  systemDark : Bool
deriving Repr, DecidableEq

/-- `ThemeService.isSystemDark`: with no attached window the optional
chain `this.document.defaultView?.matchMedia(...).matches!` evaluates to
`undefined` (it does not throw); otherwise it is the media query's
boolean. -/
def isSystemDark (env : Env) : JSVal :=
  if env.hasWindow then .bool env.systemDark else .undefined

/-- Combined state: the persistent store cell for the key "theme", the
service's fields (`settings`, `destructionSubject`), the live rxjs
subscriptions on the media query (tagged by the id of the
`destructionSubject` they are piped through with `takeUntil`), and the
DOM state the Theme Applier mutates. -/
structure State where
  store : Option StoredCell
  settings : JSVal
  destructionSubject : Option Nat
  liveSubs : List Nat
  nextSubjectId : Nat
  bodyLightClass : Bool
  href : Option String
deriving Repr

/-- `getLocalStorageItem`: reads the cell; an absent key or a falsy
(empty) stored string yields `undefined`; otherwise the string is fed to
`JSON.parse`, which either throws (modelled as `Except.error`) or
returns the parsed value. -/
def getLocalStorageItem : Option StoredCell → Except Unit JSVal
  | none => .ok .undefined
  | some .emptyStr => .ok .undefined
  | some .unparseable => .error ()
  | some (.parsed v) => .ok v

/-- `setLocalStorageItem`: serializes the value and stores it. -/
def setLocalStorageItem (v : JSVal) (s : State) : State :=
  { s with store := some (serializeCell v) }

/-- `removeLocalStorageItem`. -/
def removeLocalStorageItem (s : State) : State :=
  { s with store := none }

/-- `setKendoUiControlsMode`: repoints the (lazily created) stylesheet
link element's `href`. -/
def setKendoUiControlsMode (path : String) (s : State) : State :=
  { s with href := some path }

/-- `setMode(darkMode)`: truthy selects the dark stylesheet and removes
the `theme-alternate` marker class from the body; falsy adds the class
and selects the light stylesheet.  The parameter is a `JSVal` because
`apply` feeds it `settings.darkMode`, which can be `undefined`. -/
def setMode (darkMode : JSVal) (s : State) : State :=
  if darkMode.truthy then
    setKendoUiControlsMode "kendoui-dark.css" { s with bodyLightClass := false }
  else
    setKendoUiControlsMode "kendoui-light.css" { s with bodyLightClass := true }

/-- `apply()`: applies the mode stored in the in-memory settings. -/
def applyTheme (s : State) : State :=
  setMode (s.settings.getField "darkMode") s

/-- `startSystemModeSynchronization`: only when no `destructionSubject`
exists and a window is attached, a fresh subject is created and one
subscription on the media query's `change` event is opened, piped
through `takeUntil` of that subject. -/
def startSystemModeSynchronization (env : Env) (s : State) : State :=
  if s.destructionSubject.isNone && env.hasWindow then
    { s with destructionSubject := some s.nextSubjectId,
             liveSubs := s.nextSubjectId :: s.liveSubs,
             nextSubjectId := s.nextSubjectId + 1 }
  else s

/-- `stopSystemModeSynchronization`: when a subject exists, `next()` and
`complete()` terminate every subscription piped through `takeUntil` of
that subject, and the subject reference is cleared. -/
def stopSystemModeSynchronization (s : State) : State :=
  match s.destructionSubject with
  | some i =>
      { s with destructionSubject := none,
               liveSubs := s.liveSubs.filter (fun j => j != i) }
  | none => s

/-- The fresh `ThemeSettings` record: `darkMode` is initialized `false`. -/
def freshThemeSettings : JSVal := .obj [("darkMode", .bool false)]

/-- The `ThemeService` constructor (the spec's `initialize()`), run on a
fresh page: loads the persisted settings; a thrown `JSON.parse` error
propagates (`Except.error`).  If the loaded value is falsy, a fresh
settings record is created, seeded from `isSystemDark()`, and the
system-mode synchronization is started.  No theme is applied to the DOM
yet. -/
def constructorFn (env : Env) (store : Option StoredCell) : Except Unit State := do
  let v ← getLocalStorageItem store
  let s : State :=
    { store := store, settings := v, destructionSubject := none,
      liveSubs := [], nextSubjectId := 0, bodyLightClass := false, href := none }
  if v.truthy then
    return s
  else
    let s := { s with settings := freshThemeSettings.setField "darkMode" (isSystemDark env) }
    return startSystemModeSynchronization env s

/-- `setSystemMode()`: applies the current OS preference, starts the
synchronization (idempotent while a subject exists), and removes the
persisted key. -/
def setSystemMode (env : Env) (s : State) : State :=
  let s := setMode (isSystemDark env) s
  let s := startSystemModeSynchronization env s
  removeLocalStorageItem s

/-- `setUserDefinedMode(darkMode)`: applies the mode, stops any
synchronization, records the mode in the settings and persists them. -/
def setUserDefinedMode (darkMode : Bool) (s : State) : State :=
  let s := setMode (.bool darkMode) s
  let s := stopSystemModeSynchronization s
  let s := { s with settings := s.settings.setField "darkMode" (.bool darkMode) }
  setLocalStorageItem s.settings s

/-- `setLightMode()`. -/
def setLightMode (s : State) : State := setUserDefinedMode false s

/-- `setDarkMode()`. -/
def setDarkMode (s : State) : State := setUserDefinedMode true s

/-- `ngOnDestroy()`. -/
def ngOnDestroy (s : State) : State := stopSystemModeSynchronization s

/-- Delivery of a `change` event of the media query: the subscribed
callback (which reads `e.matches` and calls `setMode`) runs only while a
live subscription exists. -/
def osChangeEvent (newDark : Bool) (s : State) : State :=
  if s.liveSubs.isEmpty then s else setMode (.bool newDark) s

/-- The operations the surrounding application (and the host) can invoke
on a constructed service: the public API, an OS preference-change event,
`ngOnDestroy`, and a page reload (which re-runs the constructor over the
surviving store, with a fresh DOM and no surviving subscriptions). -/
inductive Op where
  | applyOp : Op
  | setDark : Op
  | setLight : Op
  | setUserDefined (d : Bool) : Op
  | setSystem : Op
  | osChange (newDark : Bool) : Op
  | destroy : Op
  | reload : Op
deriving Repr, DecidableEq

/-- One operation, run under the environment of that moment.  Only
`reload` can fail (the constructor propagates a parse error). -/
def step (env : Env) (op : Op) (s : State) : Except Unit State :=
  match op with
  | .applyOp => .ok (applyTheme s)
  | .setDark => .ok (setDarkMode s)
  | .setLight => .ok (setLightMode s)
  | .setUserDefined d => .ok (setUserDefinedMode d s)
  | .setSystem => .ok (setSystemMode env s)
  | .osChange b => .ok (osChangeEvent b s)
  | .destroy => .ok (ngOnDestroy s)
  | .reload => constructorFn env s.store

/-- Run a sequence of operations, each under its own environment. -/
def runSteps : List (Env × Op) → State → Except Unit State
  | [], s => .ok s
  | (env, op) :: rest, s => (step env op s).bind (runSteps rest)

/-- States reachable by the service over a pristine system (first-ever
startup finds no "theme" key), indexed by the specification-level mode
flag: `Reach true s` means the application is in follow-system mode in
`s`, `Reach false s` means user-override mode.  The index follows the
spec's state machine: startup with no persisted record enters follow
mode, a found record enters override mode, `setUserDefinedMode` enters
override mode, `setSystemMode` enters follow mode, and the remaining
operations do not change the mode. -/
inductive Reach : Bool → State → Prop where
  | boot (env : Env) (s : State) :
      constructorFn env none = .ok s → Reach true s
  | stepApply {m : Bool} {s : State} :
      Reach m s → Reach m (applyTheme s)
  | stepUserDefined {m : Bool} {s : State} (d : Bool) :
      Reach m s → Reach false (setUserDefinedMode d s)
  | stepSystem {m : Bool} {s : State} (env : Env) :
      Reach m s → Reach true (setSystemMode env s)
  | stepOsChange {m : Bool} {s : State} (b : Bool) :
      Reach m s → Reach m (osChangeEvent b s)
  | stepDestroy {m : Bool} {s : State} :
      Reach m s → Reach m (ngOnDestroy s)
  | stepReload {m : Bool} {s : State} (env : Env) (s' : State) :
      Reach m s → constructorFn env s.store = .ok s' →
      Reach s.store.isNone s'

/-- Well-formedness invariant of reachable states, relative to the mode
flag `m` (`true` = follow mode): the persisted key exists exactly in
override mode and always holds a parsed settings object, the in-memory
settings are an object, the live subscriptions are exactly the one tied
to the current `destructionSubject` (if any), and a subject exists only
in follow mode. -/
def WF (m : Bool) (s : State) : Prop :=
  (s.store = none ↔ m = true) ∧
  (∃ fs, s.settings = JSVal.obj fs) ∧
  (∀ c, s.store = some c → ∃ fs, c = StoredCell.parsed (JSVal.obj fs)) ∧
  (match s.destructionSubject with
   | some i => s.liveSubs = [i]
   | none => s.liveSubs = []) ∧
  (s.destructionSubject ≠ none → m = true)

theorem setMode_store (d : JSVal) (s : State) : (setMode d s).store = s.store := by
  unfold setMode setKendoUiControlsMode; split <;> rfl

theorem setMode_settings (d : JSVal) (s : State) : (setMode d s).settings = s.settings := by
  unfold setMode setKendoUiControlsMode; split <;> rfl

theorem setMode_subject (d : JSVal) (s : State) :
    (setMode d s).destructionSubject = s.destructionSubject := by
  unfold setMode setKendoUiControlsMode; split <;> rfl

theorem setMode_liveSubs (d : JSVal) (s : State) : (setMode d s).liveSubs = s.liveSubs := by
  unfold setMode setKendoUiControlsMode; split <;> rfl

theorem setMode_nextId (d : JSVal) (s : State) :
    (setMode d s).nextSubjectId = s.nextSubjectId := by
  unfold setMode setKendoUiControlsMode; split <;> rfl

theorem setMode_bodyLightClass (d : JSVal) (s : State) :
    (setMode d s).bodyLightClass = !d.truthy := by
  unfold setMode setKendoUiControlsMode
  cases h : d.truthy <;> simp [h]

theorem setMode_href (d : JSVal) (s : State) :
    (setMode d s).href = some (if d.truthy then "kendoui-dark.css" else "kendoui-light.css") := by
  unfold setMode setKendoUiControlsMode
  cases h : d.truthy <;> simp [h]

theorem stop_store (s : State) : (stopSystemModeSynchronization s).store = s.store := by
  unfold stopSystemModeSynchronization; split <;> rfl

theorem stop_settings (s : State) :
    (stopSystemModeSynchronization s).settings = s.settings := by
  unfold stopSystemModeSynchronization; split <;> rfl

theorem stop_subject (s : State) :
    (stopSystemModeSynchronization s).destructionSubject = none := by
  unfold stopSystemModeSynchronization
  split
  · rfl
  · next h => exact h

/-- A state transformation touching none of the fields `WF` mentions
preserves `WF`. -/
theorem wf_congr {m : Bool} {s s' : State}
    (h1 : s'.store = s.store) (h2 : s'.settings = s.settings)
    (h3 : s'.destructionSubject = s.destructionSubject)
    (h4 : s'.liveSubs = s.liveSubs) (h : WF m s) : WF m s' := by
  unfold WF at h ⊢
  rw [h1, h2, h3, h4]
  exact h

theorem wf_apply {m : Bool} {s : State} (h : WF m s) : WF m (applyTheme s) :=
  wf_congr (setMode_store _ _) (setMode_settings _ _) (setMode_subject _ _)
    (setMode_liveSubs _ _) h

theorem wf_osChange {m : Bool} {s : State} (b : Bool) (h : WF m s) :
    WF m (osChangeEvent b s) := by
  unfold osChangeEvent
  split
  · exact h
  · exact wf_congr (setMode_store _ _) (setMode_settings _ _) (setMode_subject _ _)
      (setMode_liveSubs _ _) h

theorem wf_destroy {m : Bool} {s : State} (h : WF m s) : WF m (ngOnDestroy s) := by
  obtain ⟨hst, hset, hwf, hshape, hsub⟩ := h
  unfold ngOnDestroy stopSystemModeSynchronization
  cases hd : s.destructionSubject with
  | none => exact ⟨hst, hset, hwf, by rw [hd] at hshape; simpa [hd] using hshape, by simp [hd]⟩
  | some i =>
      rw [hd] at hshape
      refine ⟨hst, hset, hwf, ?_, by simp⟩
      simp [hshape]

theorem wf_system {m : Bool} (env : Env) {s : State} (h : WF m s) :
    WF true (setSystemMode env s) := by
  obtain ⟨hst, hset, hwf, hshape, hsub⟩ := h
  unfold setSystemMode removeLocalStorageItem startSystemModeSynchronization
  cases hd : s.destructionSubject with
  | some i =>
      rw [hd] at hshape
      simp [setMode_subject, hd, setMode_liveSubs, setMode_settings, hshape, hset, WF]
  | none =>
      rw [hd] at hshape
      cases hw : env.hasWindow with
      | true =>
          simp [setMode_subject, hd, hw, setMode_liveSubs, setMode_settings, hshape, hset, WF]
      | false =>
          simp [setMode_subject, hd, hw, setMode_liveSubs, setMode_settings, hshape, hset, WF]

theorem wf_userDefined {m : Bool} (d : Bool) {s : State} (h : WF m s) :
    WF false (setUserDefinedMode d s) := by
  obtain ⟨hst, ⟨fs, hset⟩, hwf, hshape, hsub⟩ := h
  unfold setUserDefinedMode setLocalStorageItem
  have hset' : (stopSystemModeSynchronization (setMode (JSVal.bool d) s)).settings
      = JSVal.obj fs := by rw [stop_settings, setMode_settings, hset]
  have hsubs' : (stopSystemModeSynchronization (setMode (JSVal.bool d) s)).liveSubs = [] := by
    unfold stopSystemModeSynchronization
    cases hd : (setMode (JSVal.bool d) s).destructionSubject with
    | none =>
        rw [setMode_subject] at hd
        rw [hd] at hshape
        simpa [setMode_liveSubs] using hshape
    | some i =>
        rw [setMode_subject] at hd
        rw [hd] at hshape
        simp [setMode_liveSubs, hshape]
  refine ⟨by simp [serializeCell, hset'], ?_, ?_, ?_, ?_⟩
  · exact ⟨updateField fs "darkMode" (JSVal.bool d), by simp [hset', JSVal.setField]⟩
  · intro c hc
    simp only [hset', JSVal.setField, serializeCell, Option.some_inj] at hc
    exact ⟨_, hc.symm⟩
  · simpa [stop_subject] using hsubs'
  · simp [stop_subject]

/-- The constructor establishes the invariant, with the mode flag
determined by whether the persisted key was absent, provided every
pre-existing cell is an application-written record. -/
theorem constructor_wf (env : Env) (store : Option StoredCell) (s : State)
    (hstore : ∀ c, store = some c → ∃ fs, c = StoredCell.parsed (JSVal.obj fs))
    (h : constructorFn env store = .ok s) : WF store.isNone s := by
  cases store with
  | none =>
      have hred : constructorFn env none = .ok (startSystemModeSynchronization env
        { store := none, settings := JSVal.obj [("darkMode", isSystemDark env)],
          destructionSubject := none, liveSubs := [], nextSubjectId := 0,
          bodyLightClass := false, href := none }) := rfl
      rw [hred] at h
      cases h
      unfold startSystemModeSynchronization
      cases hw : env.hasWindow with
      | true => simp [WF, hw]
      | false => simp [WF, hw]
  | some c =>
      obtain ⟨fs, rfl⟩ := hstore c rfl
      have hred : constructorFn env (some (StoredCell.parsed (JSVal.obj fs))) = .ok
        { store := some (StoredCell.parsed (JSVal.obj fs)), settings := JSVal.obj fs,
          destructionSubject := none, liveSubs := [], nextSubjectId := 0,
          bodyLightClass := false, href := none } := rfl
      rw [hred] at h
      cases h
      simp [WF]

/-- Every reachable state satisfies the well-formedness invariant. -/
theorem reach_wf {m : Bool} {s : State} (h : Reach m s) : WF m s := by
  induction h with
  | boot env s h => exact constructor_wf env none s (by intro c hc; cases hc) h
  | stepApply _ ih => exact wf_apply ih
  | stepUserDefined d _ ih => exact wf_userDefined d ih
  | stepSystem env _ ih => exact wf_system env ih
  | stepOsChange b _ ih => exact wf_osChange b ih
  | stepDestroy _ ih => exact wf_destroy ih
  | stepReload env s' _ hc ih => exact constructor_wf env _ s' ih.2.2.1 hc

theorem lookup_update (fs : List (String × JSVal)) (k : String) (v : JSVal) :
    lookupField (updateField fs k v) k = v := by
  induction fs with
  | nil => simp [updateField, lookupField]
  | cons p rest ih =>
      obtain ⟨a, w⟩ := p
      unfold updateField
      by_cases ha : a = k
      · simp [ha, lookupField]
      · simp [ha, lookupField, ih]

theorem lookup_filter_dropped (fs : List (String × JSVal)) (k : String) (v : JSVal)
    (hv : isUndefinedVal v = false) (h : lookupField fs k = v) :
    lookupField (fs.filter (fun p => !isUndefinedVal p.2)) k = v := by
  induction fs with
  | nil => simpa [lookupField] using h
  | cons p rest ih =>
      obtain ⟨a, w⟩ := p
      by_cases ha : a = k
      · subst ha
        have hw : w = v := by simpa [lookupField] using h
        subst hw
        simp [List.filter, hv, lookupField]
      · simp only [lookupField, if_neg ha] at h
        cases hw : isUndefinedVal w <;> simp [List.filter, hw, lookupField, ha, ih h]

theorem start_store (env : Env) (s : State) :
    (startSystemModeSynchronization env s).store = s.store := by
  unfold startSystemModeSynchronization; split <;> rfl

theorem start_settings (env : Env) (s : State) :
    (startSystemModeSynchronization env s).settings = s.settings := by
  unfold startSystemModeSynchronization; split <;> rfl

theorem start_href (env : Env) (s : State) :
    (startSystemModeSynchronization env s).href = s.href := by
  unfold startSystemModeSynchronization; split <;> rfl

theorem start_bodyLightClass (env : Env) (s : State) :
    (startSystemModeSynchronization env s).bodyLightClass = s.bodyLightClass := by
  unfold startSystemModeSynchronization; split <;> rfl

theorem start_liveSubs (env : Env) (s : State) :
    (startSystemModeSynchronization env s).liveSubs =
      if s.destructionSubject.isNone && env.hasWindow
      then s.nextSubjectId :: s.liveSubs else s.liveSubs := by
  unfold startSystemModeSynchronization; split <;> simp_all

theorem start_subject (env : Env) (s : State) :
    (startSystemModeSynchronization env s).destructionSubject =
      if s.destructionSubject.isNone && env.hasWindow
      then some s.nextSubjectId else s.destructionSubject := by
  unfold startSystemModeSynchronization; split <;> simp_all

theorem userDefined_subject (d : Bool) (s : State) :
    (setUserDefinedMode d s).destructionSubject = none := by
  unfold setUserDefinedMode setLocalStorageItem
  simpa using stop_subject (setMode (JSVal.bool d) s)

/-- Environment with an attached window whose OS preference is light. -/
def envLight : Env := ⟨true, false⟩

/-- Environment with an attached window whose OS preference is dark. -/
def envDark : Env := ⟨true, true⟩

/-- The state right after a first-ever startup (no persisted key) under
`envLight`: fresh settings seeded light, follow mode, one live
subscription tied to subject 0, no theme applied yet. -/
def bootState : State :=
  { store := none, settings := .obj [("darkMode", .bool false)],
    destructionSubject := some 0, liveSubs := [0], nextSubjectId := 1,
    bodyLightClass := false, href := none }

theorem bootState_reach : Reach true bootState := Reach.boot envLight bootState rfl

/-- C1: the claim states that a persisted "theme" value that is present
but cannot be deserialized as JSON is treated as absent by the
constructor, without propagating the parse failure.  The code does the
opposite: `getLocalStorageItem` calls `JSON.parse` with no `try`/`catch`
(theme.service.ts line 88), so on a present, non-empty, unparseable
value (e.g. the stored string consisting of a single opening brace) the
parse failure propagates out of the constructor and startup crashes.
This theorem evaluates the embedded constructor at such a cell. -/
theorem C1_constructor_propagates_parse_failure :
    constructorFn envDark (some StoredCell.unparseable) = .error () := rfl

/-- C2: in every reachable state (over a pristine system, across any
sequence of startups, user mode switches, system-mode selections, theme
applications, OS-change callbacks and teardowns), a persisted record
exists under the key "theme" iff the application is in user-override
mode (`m = false`), and the key is absent iff it follows the OS
preference (`m = true`). -/
theorem C2_persisted_record_iff_override {m : Bool} {s : State} (h : Reach m s) :
    ((∃ c, s.store = some c) ↔ m = false) ∧ (s.store = none ↔ m = true) := by
  have hw := (reach_wf h).1
  refine ⟨⟨?_, ?_⟩, hw⟩
  · rintro ⟨c, hc⟩
    cases m with
    | false => rfl
    | true => rw [hw.mpr rfl] at hc; cases hc
  · intro hm
    cases hs : s.store with
    | none => rw [hw.mp hs] at hm; cases hm
    | some c => exact ⟨c, rfl⟩

theorem C2_witness :
    ((∃ c, bootState.store = some c) ↔ true = false) ∧
      (bootState.store = none ↔ true = true) :=
  C2_persisted_record_iff_override bootState_reach

/-- C3 as stated is false: it asserts a live OS-preference subscription
exists iff the application is in follow-system mode, in every reachable
state including after `ngOnDestroy`.  Concrete counterexample: boot on
an empty store (follow mode, one subscription), then `ngOnDestroy`; the
resulting state is still in follow-system mode (its persisted key is
absent and a reload re-derives from the OS), yet it has no live
subscription. -/
theorem C3_counterexample :
    ¬ (∀ (m : Bool) (s : State), Reach m s → (s.liveSubs ≠ [] ↔ m = true)) := by
  intro hclaim
  have h := (hclaim true (ngOnDestroy bootState)
    (Reach.stepDestroy bootState_reach)).mpr rfl
  exact h rfl

/-- C3 (amended): a live OS-preference subscription exists only if the
application is in follow-system mode; conversely, follow mode guarantees
a live subscription when it is (re-)entered through `setSystemMode`
under an attached window — but not after `ngOnDestroy`, and not after a
startup without an attached window. -/
theorem C3_subscription_only_in_follow {m : Bool} {s : State} (h : Reach m s) :
    (s.liveSubs ≠ [] → m = true) ∧
    (∀ env : Env, env.hasWindow = true → (setSystemMode env s).liveSubs ≠ []) := by
  obtain ⟨hst, hset, hwfst, hshape, hsub⟩ := reach_wf h
  constructor
  · intro hne
    cases hd : s.destructionSubject with
    | some i => exact hsub (by simp [hd])
    | none => rw [hd] at hshape; exact absurd hshape hne
  · intro env hw
    unfold setSystemMode removeLocalStorageItem
    simp only [start_liveSubs, setMode_subject, setMode_liveSubs, setMode_nextId]
    cases hd : s.destructionSubject with
    | none => simp [hd, hw]
    | some i =>
        rw [hd] at hshape
        simp [hd, hw, hshape]

theorem C3_amended_witness :
    (bootState.liveSubs ≠ [] → true = true) ∧
    (∀ env : Env, env.hasWindow = true → (setSystemMode env bootState).liveSubs ≠ []) :=
  C3_subscription_only_in_follow bootState_reach

/-- C5: for every prior state and environment, after `setSystemMode()`
the persisted key "theme" is absent, and the theme applied to the DOM
(stylesheet href and the `theme-alternate` marker class on the body)
matches the OS preference read at that moment by `isSystemDark` (with no
attached window that read is `undefined`, i.e. not dark). -/
theorem C5_setSystemMode_follows_os (env : Env) (s : State) :
    (setSystemMode env s).store = none ∧
    (setSystemMode env s).href =
      some (if (isSystemDark env).truthy then "kendoui-dark.css" else "kendoui-light.css") ∧
    (setSystemMode env s).bodyLightClass = !(isSystemDark env).truthy := by
  unfold setSystemMode removeLocalStorageItem
  refine ⟨rfl, ?_, ?_⟩
  · simp [start_href, setMode_href]
  · simp [start_bodyLightClass, setMode_bodyLightClass]

/-- Persisted cell holding the record with `darkMode` set to `false`
(the stored JSON text of that object). -/
def c6Store : Option StoredCell :=
  some (.parsed (.obj [("darkMode", .bool false)]))

/-- C6: with the persisted record `darkMode = false` present and the OS
preference dark, the constructor accepts the record (override mode, no
subscription started) and `apply()` activates the light stylesheet and
the light marker class: the persisted override wins over the OS
preference. -/
theorem C6_override_wins_over_os :
    ∃ s, constructorFn envDark c6Store = .ok s ∧
      (applyTheme s).href = some "kendoui-light.css" ∧
      (applyTheme s).bodyLightClass = true ∧
      s.liveSubs = [] ∧ s.destructionSubject = none := by
  refine ⟨_, rfl, ?_, ?_, ?_, ?_⟩ <;> rfl

/-- The constructor on a cell that parses to a settings object uses the
record as-is: override mode, no subscription, no DOM write. -/
theorem constructor_found (env : Env) (gs : List (String × JSVal)) :
    constructorFn env (some (.parsed (.obj gs))) = .ok
      { store := some (.parsed (.obj gs)), settings := .obj gs,
        destructionSubject := none, liveSubs := [], nextSubjectId := 0,
        bodyLightClass := false, href := none } := rfl

theorem userDefined_settings {fs : List (String × JSVal)} (d : Bool) (s : State)
    (hset : s.settings = .obj fs) :
    (setUserDefinedMode d s).settings = .obj (updateField fs "darkMode" (.bool d)) := by
  unfold setUserDefinedMode setLocalStorageItem
  simp [stop_settings, setMode_settings, hset, JSVal.setField]

theorem userDefined_store {fs : List (String × JSVal)} (d : Bool) (s : State)
    (hset : s.settings = .obj fs) :
    (setUserDefinedMode d s).store = some (.parsed (.obj
      ((updateField fs "darkMode" (.bool d)).filter (fun p => !isUndefinedVal p.2)))) := by
  unfold setUserDefinedMode setLocalStorageItem
  simp [stop_settings, setMode_settings, hset, JSVal.setField, serializeCell]

/-- C4: from any reachable state, `setUserDefinedMode(d)` makes the
resolved theme (`settings.darkMode`) equal `d`, and a fresh startup
(a new constructor run over the store that call left behind) again
resolves the theme to `d`: the persistence round-trip. -/
theorem C4_persistence_roundtrip {m : Bool} {s : State} (h : Reach m s)
    (d : Bool) (env2 : Env) :
    ((setUserDefinedMode d s).settings.getField "darkMode" = JSVal.bool d) ∧
    (∃ s2, constructorFn env2 (setUserDefinedMode d s).store = .ok s2 ∧
      s2.settings.getField "darkMode" = JSVal.bool d) := by
  obtain ⟨fs, hset⟩ := (reach_wf h).2.1
  have hlk : lookupField (updateField fs "darkMode" (.bool d)) "darkMode" = .bool d :=
    lookup_update fs "darkMode" (.bool d)
  refine ⟨?_, ?_⟩
  · rw [userDefined_settings d s hset]
    simpa [JSVal.getField] using hlk
  · rw [userDefined_store d s hset]
    refine ⟨_, constructor_found env2 _, ?_⟩
    simp only [JSVal.getField]
    exact lookup_filter_dropped _ _ _ rfl hlk

theorem C4_witness :
    ((setUserDefinedMode true bootState).settings.getField "darkMode" = JSVal.bool true) ∧
    (∃ s2, constructorFn envDark (setUserDefinedMode true bootState).store = .ok s2 ∧
      s2.settings.getField "darkMode" = JSVal.bool true) :=
  C4_persistence_roundtrip bootState_reach true envDark

theorem setSystem_subject_isSome (env : Env) (s : State) (hw : env.hasWindow = true) :
    (setSystemMode env s).destructionSubject ≠ none := by
  unfold setSystemMode removeLocalStorageItem
  simp only [start_subject, setMode_subject, setMode_nextId]
  cases hd : s.destructionSubject <;> simp [hd, hw]

theorem setSystem_noop_liveSubs (env : Env) (s : State)
    (h : s.destructionSubject ≠ none) :
    (setSystemMode env s).liveSubs = s.liveSubs := by
  unfold setSystemMode removeLocalStorageItem
  simp only [start_liveSubs, setMode_subject, setMode_liveSubs, setMode_nextId]
  cases hd : s.destructionSubject with
  | none => exact absurd hd h
  | some i => simp [hd]

/-- C7: in every reachable state at most one OS-preference subscription
is live, and (with a window attached) calling `setSystemMode()` twice in
a row leaves exactly one live subscription, not two. -/
theorem C7_at_most_one_subscription {m : Bool} {s : State} (h : Reach m s) (env : Env) :
    s.liveSubs.length ≤ 1 ∧
    (env.hasWindow = true →
      (setSystemMode env (setSystemMode env s)).liveSubs.length = 1) := by
  have hwf := reach_wf h
  constructor
  · obtain ⟨-, -, -, hshape, -⟩ := hwf
    cases hd : s.destructionSubject with
    | none => rw [hd] at hshape; simp [hshape]
    | some i => rw [hd] at hshape; simp [hshape]
  · intro hw
    obtain ⟨-, -, -, hshape1, -⟩ := wf_system env hwf
    have hsome := setSystem_subject_isSome env s hw
    rw [setSystem_noop_liveSubs env _ hsome]
    cases hd : (setSystemMode env s).destructionSubject with
    | none => exact absurd hd hsome
    | some i => rw [hd] at hshape1; simp [hshape1]

theorem C7_witness :
    bootState.liveSubs.length ≤ 1 ∧
    (envDark.hasWindow = true →
      (setSystemMode envDark (setSystemMode envDark bootState)).liveSubs.length = 1) :=
  C7_at_most_one_subscription bootState_reach envDark

/-- A state in override mode at rest: the store holds a parsed settings
object, the in-memory settings are an object, and no subject or
subscription is live.  Preserved by every operation except
`setSystemMode`. -/
def Quiet (s : State) : Prop :=
  (∃ fs, s.store = some (StoredCell.parsed (JSVal.obj fs))) ∧
  (∃ fs, s.settings = JSVal.obj fs) ∧
  s.destructionSubject = none ∧ s.liveSubs = []

theorem quiet_userDefined {m : Bool} (d : Bool) {s : State} (h : WF m s) :
    Quiet (setUserDefinedMode d s) := by
  obtain ⟨hst, hset, hwfst, hshape, -⟩ := wf_userDefined d h
  have hsubj := userDefined_subject d s
  refine ⟨?_, hset, hsubj, ?_⟩
  · cases hs : (setUserDefinedMode d s).store with
    | none => simp [hs] at hst
    | some c => obtain ⟨fs, rfl⟩ := hwfst c hs; exact ⟨fs, rfl⟩
  · rw [hsubj] at hshape
    exact hshape

theorem userDefined_liveSubs_of_none (d : Bool) (s : State)
    (hsubj : s.destructionSubject = none) :
    (setUserDefinedMode d s).liveSubs = s.liveSubs := by
  unfold setUserDefinedMode setLocalStorageItem stopSystemModeSynchronization
  simp [setMode_subject, hsubj, setMode_liveSubs]

theorem quiet_step {env : Env} {op : Op} {s s' : State} (hq : Quiet s)
    (hop : op ≠ Op.setSystem) (h : step env op s = .ok s') : Quiet s' := by
  obtain ⟨⟨fs, hstore⟩, ⟨gs, hset⟩, hsubj, hsubs⟩ := hq
  cases op with
  | setSystem => exact absurd rfl hop
  | applyOp =>
      cases h
      exact ⟨⟨fs, by rw [applyTheme, setMode_store, hstore]⟩,
        ⟨gs, by rw [applyTheme, setMode_settings, hset]⟩,
        by rw [applyTheme, setMode_subject, hsubj],
        by rw [applyTheme, setMode_liveSubs, hsubs]⟩
  | setDark =>
      cases h
      exact ⟨⟨_, userDefined_store true s hset⟩, ⟨_, userDefined_settings true s hset⟩,
        userDefined_subject true s,
        by show (setUserDefinedMode true s).liveSubs = []
           rw [userDefined_liveSubs_of_none true s hsubj, hsubs]⟩
  | setLight =>
      cases h
      exact ⟨⟨_, userDefined_store false s hset⟩, ⟨_, userDefined_settings false s hset⟩,
        userDefined_subject false s,
        by show (setUserDefinedMode false s).liveSubs = []
           rw [userDefined_liveSubs_of_none false s hsubj, hsubs]⟩
  | setUserDefined d =>
      cases h
      exact ⟨⟨_, userDefined_store d s hset⟩, ⟨_, userDefined_settings d s hset⟩,
        userDefined_subject d s, by rw [userDefined_liveSubs_of_none d s hsubj, hsubs]⟩
  | osChange b =>
      simp only [step, osChangeEvent, hsubs, List.isEmpty_nil, if_pos] at h
      cases h
      exact ⟨⟨fs, hstore⟩, ⟨gs, hset⟩, hsubj, hsubs⟩
  | destroy =>
      simp only [step, ngOnDestroy, stopSystemModeSynchronization, hsubj] at h
      cases h
      exact ⟨⟨fs, hstore⟩, ⟨gs, hset⟩, hsubj, hsubs⟩
  | reload =>
      simp only [step, hstore, constructor_found] at h
      cases h
      exact ⟨⟨fs, rfl⟩, ⟨fs, rfl⟩, rfl, rfl⟩

theorem quiet_runSteps {steps : List (Env × Op)} {s s' : State} (hq : Quiet s)
    (hns : ∀ p ∈ steps, p.2 ≠ Op.setSystem) (h : runSteps steps s = .ok s') :
    Quiet s' := by
  induction steps generalizing s with
  | nil =>
      simp only [runSteps] at h
      cases h
      exact hq
  | cons p rest ih =>
      obtain ⟨env, op⟩ := p
      simp only [runSteps] at h
      cases hstep : step env op s with
      | error e => rw [hstep] at h; cases h
      | ok s1 =>
          rw [hstep] at h
          exact ih (quiet_step hq (hns (env, op) (List.mem_cons_self _ _)) hstep)
            (fun q hq' => hns q (List.mem_cons_of_mem _ hq')) h

/-- C8: after `setUserDefinedMode(d)` from any reachable state, the OS
subscription is stopped, and this persists across any further sequence
of operations that does not call `setSystemMode`: no live subscription
exists, so a simulated OS preference-change event is a complete no-op
(in particular it invokes the Theme Applier on neither the marker class
nor the stylesheet). -/
theorem C8_os_events_inert_after_override {m : Bool} {s : State} (h : Reach m s)
    (d : Bool) (steps : List (Env × Op))
    (hns : ∀ p ∈ steps, p.2 ≠ Op.setSystem) {s1 : State}
    (hrun : runSteps steps (setUserDefinedMode d s) = .ok s1) :
    s1.liveSubs = [] ∧ ∀ b, osChangeEvent b s1 = s1 := by
  have hq := quiet_runSteps (quiet_userDefined d (reach_wf h)) hns hrun
  exact ⟨hq.2.2.2, fun b => by simp [osChangeEvent, hq.2.2.2]⟩

theorem C8_witness :
    (setUserDefinedMode true bootState).liveSubs = [] ∧
    ∀ b, osChangeEvent b (setUserDefinedMode true bootState) =
      setUserDefinedMode true bootState :=
  C8_os_events_inert_after_override bootState_reach true []
    (by intro p hp; cases hp) rfl

/-- Environment with no attached window (`document.defaultView` absent). -/
def envHeadless : Env := ⟨false, false⟩

/-- C9: with no attached window, `isSystemDark()` evaluates the optional
chain to `undefined` rather than throwing (the embedding is a total
function), which reads as the default "not dark"; the follow-mode
subscription does not start (`startSystemModeSynchronization` is the
identity), and any successful startup ends with no live subscription. -/
theorem C9_headless_defaults {env : Env} (hw : env.hasWindow = false)
    (s : State) (store : Option StoredCell) :
    (isSystemDark env).truthy = false ∧
    startSystemModeSynchronization env s = s ∧
    (∀ s0, constructorFn env store = .ok s0 → s0.liveSubs = []) := by
  have hstart : ∀ t : State, startSystemModeSynchronization env t = t := by
    intro t; unfold startSystemModeSynchronization; simp [hw]
  refine ⟨by simp [isSystemDark, hw, JSVal.truthy], hstart s, ?_⟩
  intro s0 h0
  cases store with
  | none =>
      rw [show constructorFn env none = .ok (startSystemModeSynchronization env
        { store := none, settings := .obj [("darkMode", isSystemDark env)],
          destructionSubject := none, liveSubs := [], nextSubjectId := 0,
          bodyLightClass := false, href := none }) from rfl, hstart] at h0
      cases h0
      rfl
  | some c =>
      cases c with
      | emptyStr =>
          rw [show constructorFn env (some .emptyStr) = .ok (startSystemModeSynchronization env
            { store := some .emptyStr, settings := .obj [("darkMode", isSystemDark env)],
              destructionSubject := none, liveSubs := [], nextSubjectId := 0,
              bodyLightClass := false, href := none }) from rfl, hstart] at h0
          cases h0
          rfl
      | unparseable => cases h0
      | parsed v =>
          unfold constructorFn at h0
          simp only [getLocalStorageItem] at h0
          cases hv : v.truthy <;>
            simp only [Except.bind, bind, hv, if_true, if_false, Bool.false_eq_true,
              pure, Except.pure, hstart] at h0 <;>
          · cases h0
            rfl

theorem C9_witness :
    (isSystemDark envHeadless).truthy = false ∧
    startSystemModeSynchronization envHeadless bootState = bootState ∧
    (∀ s0, constructorFn envHeadless none = .ok s0 → s0.liveSubs = []) :=
  C9_headless_defaults rfl bootState none

/-- Persisted cell whose JSON text parses to a truthy object lacking the
`darkMode` field. -/
def c10Store : Option StoredCell := some (.parsed (.obj [("other", .num 1)]))

/-- C10: a persisted value deserializing to a truthy object without a
`darkMode` field is accepted by the constructor as the settings record
(not treated as absent, no subscription started); `apply()` then passes
the `undefined` field to `setMode`, which takes the falsy branch:
light stylesheet plus the light marker class. -/
theorem C10_incomplete_record_takes_light_branch :
    ∃ s, constructorFn envDark c10Store = .ok s ∧
      s.settings = .obj [("other", .num 1)] ∧
      s.liveSubs = [] ∧ s.destructionSubject = none ∧
      s.settings.getField "darkMode" = JSVal.undefined ∧
      (applyTheme s).href = some "kendoui-light.css" ∧
      (applyTheme s).bodyLightClass = true := by
  refine ⟨_, rfl, ?_, ?_, ?_, ?_, ?_, ?_⟩ <;> rfl

end ThemeSwitcher
